import Mathlib

/-!
Verification development for the real-time chat delivery subsystem
(`backend/app/chat/websocket.py` and `backend/app/chat/ws_routes.py`).

The embedding models:
- the `ConnectionManager` registry state (`active_connections`,
  `websocket_users`, the lazily started redis listener task flag) and its
  operations `connect`, `disconnect`, `broadcast_to_room`;
- the redis pub/sub client state seen by `_redis_listener` (the set of
  subscribed channels plus logs of every subscribe/unsubscribe call issued);
- the database facts consulted by `verify_room_membership` and
  `get_current_user_ws`;
- the per-frame dispatch of `websocket_chat_endpoint` and
  `websocket_notifications_endpoint`, including the JSON-decode error path,
  the store-failure path and the silent fall-through paths.

WebSocket handles, users and rooms are `Nat` identifiers.  Python `dict`s are
association lists, Python `set`s are duplicate-free lists where insertion is
membership-guarded (`setAdd`) and removal filters (`setDiscard`); iteration
order of a modelled set is its list order, one admissible order for the
unordered Python iteration.  Whether a transport write succeeds is an oracle
`sendOk : Nat → Bool`; whether the redis publish and the DB commit succeed are
`Bool` flags, `false` standing for the raised exception.
-/

namespace RTChat

/-- Association-list lookup, mirroring Python `d[k]` / `k in d`. -/
def alookup {α : Type} (l : List (Nat × α)) (k : Nat) : Option α :=
  match l with
  | [] => none
  | (k', v) :: rest => if k' = k then some v else alookup rest k

/-- Association-list update/insert, mirroring Python `d[k] = v`. -/
def aset {α : Type} (l : List (Nat × α)) (k : Nat) (v : α) : List (Nat × α) :=
  match l with
  | [] => [(k, v)]
  | (k', v') :: rest => if k' = k then (k, v) :: rest else (k', v') :: aset rest k v

/-- Association-list removal, mirroring Python `del d[k]`. -/
def aremove {α : Type} (l : List (Nat × α)) (k : Nat) : List (Nat × α) :=
  l.filter (fun p => p.1 ≠ k)

/-- Python `set.add`: no-op when the element is already present. -/
def setAdd (l : List Nat) (x : Nat) : List Nat :=
  if x ∈ l then l else l ++ [x]

/-- Python `set.discard`. -/
def setDiscard (l : List Nat) (x : Nat) : List Nat :=
  l.filter (fun y => y ≠ x)

/-- Outbound frame payloads produced by the two endpoints
(`ws_routes.py`): connection confirmations, broadcast chat messages,
typing relays and error frames. -/
inductive Payload where
  | connectedRoom (room_id user_id : Nat)
  | connectedUser (user_id : Nat)
  | chatMessage (id room_id sender_id : Nat) (sender_username content timestamp : String)
  | typing (room_id user_id : Nat) (username : String) (is_typing : Bool)
  | errorMsg (message : String)
deriving DecidableEq, Repr

/-- The mutable state of the global `ConnectionManager` instance
(`websocket.py` lines 19-29): `active_connections : room_id → set of
websockets`, `websocket_users : websocket → user_id`, and whether the
redis listener task has been started. -/
structure ManagerState where
  active_connections : List (Nat × List Nat)
  websocket_users : List (Nat × Nat)
  listener_started : Bool
deriving DecidableEq, Repr

/-- `ConnectionManager.connect` (lines 31-47): ensure the room's set exists,
add the websocket, map it to its user, and start the listener task if it is
not running.  (The `websocket.accept()` transport call has no registry
effect and is not part of the state.) -/
def ConnectionManager.connect (s : ManagerState) (ws room user_id : Nat) : ManagerState :=
  let conns := match alookup s.active_connections room with
    | none => []
    | some cs => cs
  { active_connections := aset s.active_connections room (setAdd conns ws)
    websocket_users := aset s.websocket_users ws user_id
    listener_started := true }

/-- `ConnectionManager.disconnect` (lines 49-60): discard the websocket from
the room's set, delete the room key when its set becomes empty, and delete
the websocket from the user map. -/
def ConnectionManager.disconnect (s : ManagerState) (ws room : Nat) : ManagerState :=
  let ac := match alookup s.active_connections room with
    | none => s.active_connections
    | some cs =>
        let cs' := setDiscard cs ws
        if cs' = [] then aremove s.active_connections room
        else aset s.active_connections room cs'
  { active_connections := ac
    websocket_users := aremove s.websocket_users ws
    listener_started := s.listener_started }

/-- The set of websockets currently registered for a room (empty when the
room key is absent). -/
def roomConns (s : ManagerState) (room : Nat) : List Nat :=
  (alookup s.active_connections room).getD []

/-- The spec's observability hook `connections_for(room) -> count`. -/
def connections_for (s : ManagerState) (room : Nat) : Nat :=
  (roomConns s room).length

/-- Result of one `broadcast_to_room` call: which websockets a send was
attempted to, which sends succeeded, the registry state after failed
connections are cleaned up, and whether a redis publish failure was
logged. -/
structure BroadcastResult where
  attempted : List Nat
  delivered : List Nat
  state : ManagerState
  publishFailedLogged : Bool
deriving DecidableEq, Repr

/-- `ConnectionManager.broadcast_to_room` (lines 62-89): iterate the room's
live set attempting a send to each websocket (a per-send `try/except`
collects failures into `disconnected` without aborting the loop), then —
after the iteration — `disconnect` each failed websocket; finally publish
to redis inside a `try/except` that only logs a failure.  `sendOk w` tells
whether `send_text` to websocket `w` succeeds; `pubOk` whether
`redis.publish` succeeds.  The function is total: no failure escapes to
the caller. -/
def ConnectionManager.broadcast_to_room (s : ManagerState) (sendOk : Nat → Bool)
    (pubOk : Bool) (room : Nat) (_msg : Payload) : BroadcastResult :=
  match alookup s.active_connections room with
  | none =>
      { attempted := [], delivered := [], state := s, publishFailedLogged := !pubOk }
  | some conns =>
      let delivered := conns.filter (fun w => sendOk w)
      let disconnected := conns.filter (fun w => !(sendOk w))
      let s' := disconnected.foldl (fun st w => ConnectionManager.disconnect st w room) s
      { attempted := conns, delivered := delivered, state := s'
        publishFailedLogged := !pubOk }

/-- The redis pub/sub client state as used by `_redis_listener`: the set of
room channels currently subscribed (`redis-py` keeps a channel dict, so a
repeated `subscribe` of the same channel does not duplicate the entry), plus
logs of every raw `subscribe` / `unsubscribe` call issued per room, to count
how often each transition is triggered. -/
structure PubSub where
  channels : List Nat
  subscribeEvents : List Nat
  unsubscribeEvents : List Nat
deriving DecidableEq, Repr

/-- `pubsub.subscribe(*channels)`: every named channel is added to the
client's channel set (idempotently) and each call is logged. -/
def pubsubSubscribe (p : PubSub) (rooms : List Nat) : PubSub :=
  { channels := rooms.foldl (fun cs r => setAdd cs r) p.channels
    subscribeEvents := p.subscribeEvents ++ rooms
    unsubscribeEvents := p.unsubscribeEvents }

/-- One iteration of the `while True` loop in
`ConnectionManager._redis_listener` (lines 104-132): re-subscribe to the
channel of every room that currently has local connections (skipped when
there are none), then poll for one pub/sub message and, if one arrived for
a room with local connections, send it to each of that room's websockets,
disconnecting the failed ones after the pass.  Nothing in the body — and
nothing in `disconnect` — ever calls `unsubscribe`. -/
def redis_listener_iter (s : ManagerState) (sendOk : Nat → Bool) (p : PubSub)
    (incoming : Option Nat) : PubSub × ManagerState :=
  let channels := s.active_connections.map Prod.fst
  let p' := if channels = [] then p else pubsubSubscribe p channels
  match incoming with
  | none => (p', s)
  | some room =>
      match alookup s.active_connections room with
      | none => (p', s)
      | some conns =>
          let disconnected := conns.filter (fun w => !(sendOk w))
          (p', disconnected.foldl (fun st w => ConnectionManager.disconnect st w room) s)

/-- The database facts the chat core consults: existing user ids, existing
room ids, and the room-membership pairs `(room_id, user_id)`. -/
structure DB where
  users : List Nat
  rooms : List Nat
  members : List (Nat × Nat)
deriving DecidableEq, Repr

/-- `verify_room_membership` (`websocket.py` lines 167-180): the room must
exist, the user must exist, and the user must be in the room's member set. -/
def verify_room_membership (db : DB) (user_id room_id : Nat) : Bool :=
  if room_id ∈ db.rooms then
    if user_id ∈ db.users then decide ((room_id, user_id) ∈ db.members)
    else false
  else false

/-- `get_current_user_ws` (`ws_routes.py` lines 17-30): verify the token and
extract its subject (modelled by the external oracle
`verifyToken : token → Option user_id`, per the spec's
`verify_credential`), then look the user up in the database; `none` when
either step fails. -/
def get_current_user_ws (verifyToken : String → Option Nat) (db : DB)
    (token : String) : Option Nat :=
  match verifyToken token with
  | none => none
  | some uid => if uid ∈ db.users then some uid else none

/-- A persisted chat message row (`models/chat.py` fields used by the
endpoints). -/
structure Message where
  id : Nat
  room_id : Nat
  sender_id : Nat
  content : String
  message_type : String
  timestamp : String
deriving DecidableEq, Repr

/-- `save_message_to_db` (`websocket.py` lines 144-164): build the row and
commit.  `storeOk = false` models the commit raising, in which case no
message value is produced (`none`); otherwise the stored row carries the
server-assigned id and timestamp. -/
def save_message_to_db (storeOk : Bool) (nextId : Nat) (ts : String)
    (room_id sender_id : Nat) (content : String) : Option Message :=
  if storeOk then
    some { id := nextId, room_id := room_id, sender_id := sender_id
           content := content, message_type := "text", timestamp := ts }
  else none

/-- An inbound frame on the room-scope connection after the JSON decode
step: `malformed` is a `json.JSONDecodeError`, `obj ty content` a decoded
object with optional `type` and `content` fields. -/
inductive ChatFrame where
  | malformed
  | obj (ty : Option String) (content : Option String)
deriving DecidableEq, Repr

/-- Observable outcome of processing one room-scope frame: what was
persisted, what broadcast was issued (room, payload, result), which error
frame was sent back to the sender, the registry state afterwards, and
whether the receive loop continues. -/
structure FrameOutcome where
  persisted : Option Message
  broadcast : Option (Nat × Payload × BroadcastResult)
  errorTo : Option (Nat × String)
  state : ManagerState
  loopContinues : Bool
deriving DecidableEq, Repr

/-- The no-op outcome: nothing persisted, nothing broadcast, no error frame,
registry untouched, loop continues. -/
def silentOutcome (s : ManagerState) : FrameOutcome :=
  { persisted := none, broadcast := none, errorTo := none
    state := s, loopContinues := true }

/-- One body of the room-scope receive loop (`ws_routes.py` lines 91-150):
decode failure sends an "Invalid message format" error frame to the sender
and continues; a decoded frame reads `type` (default "message") and
`content` (default ""); only a "message" frame with non-empty content does
anything — persist first, then broadcast to the room — while a store
exception is caught by the per-frame handler, which sends its text
(`errText`, the `str(e)` of the exception) to the sender and continues;
every other decoded frame falls through silently. -/
def handle_chat_frame (s : ManagerState) (sendOk : Nat → Bool) (pubOk : Bool)
    (storeOk : Bool) (nextId : Nat) (ts errText : String)
    (room uid : Nat) (uname : String) (ws : Nat) (f : ChatFrame) : FrameOutcome :=
  match f with
  | .malformed =>
      { persisted := none, broadcast := none
        errorTo := some (ws, "Invalid message format")
        state := s, loopContinues := true }
  | .obj ty content =>
      let message_type := ty.getD "message"
      let c := content.getD ""
      if message_type = "message" ∧ c ≠ "" then
        match save_message_to_db storeOk nextId ts room uid c with
        | none =>
            { persisted := none, broadcast := none
              errorTo := some (ws, errText)
              state := s, loopContinues := true }
        | some m =>
            let payload := Payload.chatMessage m.id room uid uname c m.timestamp
            let r := ConnectionManager.broadcast_to_room s sendOk pubOk room payload
            { persisted := some m, broadcast := some (room, payload, r)
              errorTo := none, state := r.state, loopContinues := true }
      else silentOutcome s

/-- Outcome of the pre-loop phase of a session handler. -/
inductive SetupOutcome where
  | policyClose (code : Nat)
  | accepted (uid : Nat)
deriving DecidableEq, Repr

/-- The pre-loop phase of `websocket_chat_endpoint` (`ws_routes.py` lines
62-88): authenticate; on failure close with 1008 (policy violation) before
any registry interaction; then check room membership; on failure likewise
close with 1008; only when both succeed call `manager.connect` and send the
connection confirmation. -/
def websocket_chat_setup (verifyToken : String → Option Nat) (db : DB)
    (s : ManagerState) (room ws : Nat) (token : String) :
    SetupOutcome × ManagerState × List Payload :=
  match get_current_user_ws verifyToken db token with
  | none => (.policyClose 1008, s, [])
  | some uid =>
      if verify_room_membership db uid room then
        (.accepted uid, ConnectionManager.connect s ws room uid,
          [Payload.connectedRoom room uid])
      else (.policyClose 1008, s, [])

/-- The ways the room-scope receive loop terminates (`ws_routes.py` lines
152-156).  The `while True` loop has no normal exit: it ends either with
`WebSocketDisconnect` (transport closed) or with any other exception
escaping the per-frame handlers. -/
inductive ExitCause where
  | disconnectExc
  | otherExc
deriving DecidableEq, Repr

/-- The exit handling of `websocket_chat_endpoint`: both `except` arms call
`manager.disconnect(websocket, room_id)` (the `finally` only closes the DB
session). -/
def websocket_chat_exit (s : ManagerState) (ws room : Nat) (c : ExitCause) : ManagerState :=
  match c with
  | .disconnectExc => ConnectionManager.disconnect s ws room
  | .otherExc => ConnectionManager.disconnect s ws room

/-- The pre-loop phase of `websocket_notifications_endpoint` (`ws_routes.py`
lines 188-206): authenticate; on failure close with 1008; on success accept
the transport and send the confirmation frame.  No registry interaction of
any kind takes place: the manager state is returned unchanged. -/
def websocket_notifications_setup (verifyToken : String → Option Nat) (db : DB)
    (s : ManagerState) (ws : Nat) (token : String) :
    SetupOutcome × ManagerState × List Payload :=
  match get_current_user_ws verifyToken db token with
  | none => (.policyClose 1008, s, [])
  | some uid => (.accepted uid, s, [Payload.connectedUser uid])

/-- An inbound frame on the notification connection after JSON decode:
optional `type`, `room_id` and `is_typing` fields. -/
inductive NotifFrame where
  | malformed
  | obj (ty : Option String) (room_id : Option Nat) (is_typing : Option Bool)
deriving DecidableEq, Repr

/-- Observable outcome of processing one notification frame; no persistence
field exists because the handler has no store call at all. -/
structure NotifOutcome where
  broadcast : Option (Nat × Payload × BroadcastResult)
  errorTo : Option (Nat × String)
  state : ManagerState
  loopContinues : Bool
deriving DecidableEq, Repr

/-- The notification no-op outcome. -/
def notifSilent (s : ManagerState) : NotifOutcome :=
  { broadcast := none, errorTo := none, state := s, loopContinues := true }

/-- One body of the notification receive loop (`ws_routes.py` lines
209-245): decode failure sends an "Invalid notification format" error frame
and continues; a decoded frame is acted on only when `type` is exactly
"typing" (no default), its `room_id` is truthy (present and non-zero) and
the membership check passes, in which case the typing payload is relayed
through the same `ConnectionManager.broadcast_to_room` path; everything
else falls through silently.  Nothing is persisted on any path. -/
def handle_notification_frame (db : DB) (s : ManagerState) (sendOk : Nat → Bool)
    (pubOk : Bool) (uid : Nat) (uname : String) (ws : Nat) (f : NotifFrame) : NotifOutcome :=
  match f with
  | .malformed =>
      { broadcast := none, errorTo := some (ws, "Invalid notification format")
        state := s, loopContinues := true }
  | .obj ty room_id is_typing =>
      if ty = some "typing" then
        match room_id with
        | none => notifSilent s
        | some r =>
            if r ≠ 0 ∧ verify_room_membership db uid r then
              let payload := Payload.typing r uid uname (is_typing.getD false)
              let br := ConnectionManager.broadcast_to_room s sendOk pubOk r payload
              { broadcast := some (r, payload, br), errorTo := none
                state := br.state, loopContinues := true }
            else notifSilent s
      else notifSilent s

/-! ### Helper lemmas about the map and set operations -/

theorem alookup_aset_self {α : Type} (l : List (Nat × α)) (k : Nat) (v : α) :
    alookup (aset l k v) k = some v := by
  induction l with
  | nil => simp [aset, alookup]
  | cons hd tl ih =>
      obtain ⟨k', v'⟩ := hd
      by_cases h : k' = k
      · simp [aset, alookup, h]
      · simp [aset, alookup, h, ih]

theorem alookup_aremove_self {α : Type} (l : List (Nat × α)) (k : Nat) :
    alookup (aremove l k) k = none := by
  induction l with
  | nil => simp [aremove, alookup]
  | cons hd tl ih =>
      obtain ⟨k', v'⟩ := hd
      by_cases h : k' = k
      · simpa [aremove, alookup, h] using ih
      · simpa [aremove, alookup, h] using ih

theorem aset_aset {α : Type} (l : List (Nat × α)) (k : Nat) (v w : α) :
    aset (aset l k v) k w = aset l k w := by
  induction l with
  | nil => simp [aset]
  | cons hd tl ih =>
      obtain ⟨k', v'⟩ := hd
      by_cases h : k' = k
      · simp [aset, h]
      · simp [aset, h, ih]

theorem mem_setAdd {l : List Nat} {x y : Nat} : y ∈ setAdd l x ↔ y ∈ l ∨ y = x := by
  by_cases h : x ∈ l
  · simp only [setAdd, if_pos h]
    constructor
    · exact fun hy => Or.inl hy
    · rintro (hy | rfl) <;> [exact hy; exact h]
  · simp [setAdd, if_neg h]

theorem setAdd_mem_self (l : List Nat) (x : Nat) : x ∈ setAdd l x :=
  mem_setAdd.mpr (Or.inr rfl)

theorem setAdd_already_mem {l : List Nat} {x : Nat} (h : x ∈ l) : setAdd l x = l := by
  simp [setAdd, h]

theorem nodup_setAdd {l : List Nat} {x : Nat} (h : l.Nodup) : (setAdd l x).Nodup := by
  by_cases hx : x ∈ l
  · simpa [setAdd, hx] using h
  · simp [setAdd, hx, List.nodup_append, h]

theorem mem_setDiscard {l : List Nat} {x y : Nat} :
    y ∈ setDiscard l x ↔ y ∈ l ∧ y ≠ x := by
  simp [setDiscard, List.mem_filter]

theorem mem_foldl_setAdd (rooms : List Nat) (init : List Nat) (r : Nat) :
    r ∈ rooms.foldl (fun cs x => setAdd cs x) init ↔ r ∈ init ∨ r ∈ rooms := by
  induction rooms generalizing init with
  | nil => simp
  | cons hd tl ih =>
      simp only [List.foldl_cons, ih, mem_setAdd, List.mem_cons]
      tauto

theorem nodup_foldl_setAdd (rooms : List Nat) (init : List Nat) (h : init.Nodup) :
    (rooms.foldl (fun cs x => setAdd cs x) init).Nodup := by
  induction rooms generalizing init with
  | nil => simpa
  | cons hd tl ih => exact ih _ (nodup_setAdd h)

theorem mem_foldl_setDiscard (l : List Nat) (init : List Nat) (ws : Nat) :
    ws ∈ l.foldl (fun cs w => setDiscard cs w) init ↔ ws ∈ init ∧ ws ∉ l := by
  induction l generalizing init with
  | nil => simp
  | cons hd tl ih =>
      simp only [List.foldl_cons, ih, mem_setDiscard, List.mem_cons]
      tauto

/-! ### Helper lemmas about the connection registry operations -/

theorem disconnect_users (s : ManagerState) (ws room : Nat) :
    (ConnectionManager.disconnect s ws room).websocket_users =
      aremove s.websocket_users ws := rfl

theorem roomConns_disconnect_self (s : ManagerState) (w room : Nat) :
    roomConns (ConnectionManager.disconnect s w room) room =
      setDiscard (roomConns s room) w := by
  unfold ConnectionManager.disconnect roomConns
  cases h : alookup s.active_connections room with
  | none => simp [h, setDiscard]
  | some cs =>
      simp only [h]
      by_cases h2 : setDiscard cs w = []
      · simp [h2, alookup_aremove_self]
      · simp [h2, alookup_aset_self]

theorem roomConns_foldl_disconnect (l : List Nat) (s : ManagerState) (room : Nat) :
    roomConns (l.foldl (fun st w => ConnectionManager.disconnect st w room) s) room =
      l.foldl (fun cs w => setDiscard cs w) (roomConns s room) := by
  induction l generalizing s with
  | nil => simp
  | cons hd tl ih => simp [ih, roomConns_disconnect_self]

theorem broadcast_attempted (s : ManagerState) (sendOk : Nat → Bool) (pubOk : Bool)
    (room : Nat) (m : Payload) :
    (ConnectionManager.broadcast_to_room s sendOk pubOk room m).attempted =
      roomConns s room := by
  unfold ConnectionManager.broadcast_to_room roomConns
  cases h : alookup s.active_connections room <;> simp [h]

theorem broadcast_state_of_some (s : ManagerState) (sendOk : Nat → Bool) (pubOk : Bool)
    (room : Nat) (m : Payload) (conns : List Nat)
    (h : alookup s.active_connections room = some conns) :
    (ConnectionManager.broadcast_to_room s sendOk pubOk room m).state =
      (conns.filter (fun w => !(sendOk w))).foldl
        (fun st w => ConnectionManager.disconnect st w room) s := by
  unfold ConnectionManager.broadcast_to_room
  simp [h]

theorem broadcast_delivered_of_some (s : ManagerState) (sendOk : Nat → Bool) (pubOk : Bool)
    (room : Nat) (m : Payload) (conns : List Nat)
    (h : alookup s.active_connections room = some conns) :
    (ConnectionManager.broadcast_to_room s sendOk pubOk room m).delivered =
      conns.filter (fun w => sendOk w) := by
  unfold ConnectionManager.broadcast_to_room
  simp [h]

/-! ### Claim theorems -/

/-- C2: `broadcast_to_room` attempts delivery to every connection registered
for the room at call time (the attempted list is exactly the pre-call live
set, so a failure on one connection never shortens the pass for the
others); a connection whose write succeeds receives the payload; a
connection whose write fails is deregistered — only after the iteration,
which the model makes structural by folding `disconnect` over the failure
set once the pass is complete — and appears in no subsequent broadcast's
attempted set. -/
theorem broadcast_failure_isolated_cleanup_after
    (s : ManagerState) (sendOk sendOk2 : Nat → Bool) (pubOk pubOk2 : Bool)
    (room : Nat) (m m2 : Payload) (ws : Nat)
    (h : ws ∈ roomConns s room) :
    ((ConnectionManager.broadcast_to_room s sendOk pubOk room m).attempted =
      roomConns s room) ∧
    (sendOk ws = true →
      ws ∈ (ConnectionManager.broadcast_to_room s sendOk pubOk room m).delivered) ∧
    (sendOk ws = false →
      ws ∉ roomConns (ConnectionManager.broadcast_to_room s sendOk pubOk room m).state room ∧
      ws ∉ (ConnectionManager.broadcast_to_room
              (ConnectionManager.broadcast_to_room s sendOk pubOk room m).state
              sendOk2 pubOk2 room m2).attempted) := by
  refine ⟨broadcast_attempted s sendOk pubOk room m, ?_, ?_⟩
  all_goals
    cases hA : alookup s.active_connections room with
    | none => simp [roomConns, hA] at h
    | some conns => ?_
  · intro hok
    have hc : ws ∈ conns := by simpa [roomConns, hA] using h
    rw [broadcast_delivered_of_some s sendOk pubOk room m conns hA]
    simp [List.mem_filter, hc, hok]
  · intro hfail
    have hc : ws ∈ conns := by simpa [roomConns, hA] using h
    have hstate :
        ws ∉ roomConns (ConnectionManager.broadcast_to_room s sendOk pubOk room m).state room := by
      rw [broadcast_state_of_some s sendOk pubOk room m conns hA,
        roomConns_foldl_disconnect, mem_foldl_setDiscard]
      intro hmem
      exact hmem.2 (by simp [List.mem_filter, hc, hfail])
    refine ⟨hstate, ?_⟩
    rw [broadcast_attempted]
    exact hstate

/-- C2 witness: room 5 holds websockets 1 and 2; the write to 2 fails.  The
pass still attempts both, delivers to 1, and leaves 2 deregistered and
absent from the next pass. -/
theorem broadcast_failure_isolated_cleanup_after_witness :
    (1 : Nat) ∈ roomConns ⟨[(5, [1, 2])], [(1, 3), (2, 4)], true⟩ 5 ∧
    (2 : Nat) ∈ roomConns ⟨[(5, [1, 2])], [(1, 3), (2, 4)], true⟩ 5 ∧
    (1 : Nat) ∈ (ConnectionManager.broadcast_to_room ⟨[(5, [1, 2])], [(1, 3), (2, 4)], true⟩
        (fun w => w != 2) true 5 (Payload.errorMsg "x")).delivered ∧
    (2 : Nat) ∉ roomConns (ConnectionManager.broadcast_to_room
        ⟨[(5, [1, 2])], [(1, 3), (2, 4)], true⟩
        (fun w => w != 2) true 5 (Payload.errorMsg "x")).state 5 := by
  refine ⟨by decide, by decide, ?_, ?_⟩
  · exact (broadcast_failure_isolated_cleanup_after
      ⟨[(5, [1, 2])], [(1, 3), (2, 4)], true⟩ (fun w => w != 2) (fun _ => true) true true
      5 (Payload.errorMsg "x") (Payload.errorMsg "x") 1 (by decide)).2.1 (by decide)
  · exact ((broadcast_failure_isolated_cleanup_after
      ⟨[(5, [1, 2])], [(1, 3), (2, 4)], true⟩ (fun w => w != 2) (fun _ => true) true true
      5 (Payload.errorMsg "x") (Payload.errorMsg "x") 2 (by decide)).2.2 (by decide)).1

/-- C5: both exit paths of the room-scope session handler — the transport
disconnect and the generic exception arm — run `disconnect`, so the closed
connection is left neither in the room's connection set nor in the
websocket-to-user map.  (The `while True` receive loop has no normal exit
path; exceptions are the only way out.) -/
theorem deregistration_on_every_exit_path (s : ManagerState) (ws room : Nat) (c : ExitCause) :
    ws ∉ roomConns (websocket_chat_exit s ws room c) room ∧
    alookup (websocket_chat_exit s ws room c).websocket_users ws = none := by
  cases c <;>
    exact ⟨by
        rw [websocket_chat_exit, roomConns_disconnect_self]
        simp [mem_setDiscard],
      by rw [websocket_chat_exit, disconnect_users, alookup_aremove_self]⟩

/-- C6: a redis publish failure changes nothing about the local pass of
`broadcast_to_room` — same attempted set, same deliveries, same cleanup
state — and is only recorded as logged; the function is total, so no
error reaches the message-send caller. -/
theorem publish_failure_is_contained (s : ManagerState) (sendOk : Nat → Bool)
    (room : Nat) (m : Payload) :
    (ConnectionManager.broadcast_to_room s sendOk false room m).attempted =
      (ConnectionManager.broadcast_to_room s sendOk true room m).attempted ∧
    (ConnectionManager.broadcast_to_room s sendOk false room m).delivered =
      (ConnectionManager.broadcast_to_room s sendOk true room m).delivered ∧
    (ConnectionManager.broadcast_to_room s sendOk false room m).state =
      (ConnectionManager.broadcast_to_room s sendOk true room m).state ∧
    (ConnectionManager.broadcast_to_room s sendOk false room m).publishFailedLogged = true ∧
    (ConnectionManager.broadcast_to_room s sendOk true room m).publishFailedLogged = false := by
  unfold ConnectionManager.broadcast_to_room
  cases alookup s.active_connections room <;> simp

/-- C8: a frame that fails JSON decoding makes the handler send the frame
`type:"error", message:"Invalid message format"` to the offending
connection only; nothing is persisted, nothing is broadcast, the registry
state is untouched (the connection stays registered) and the receive loop
continues. -/
theorem malformed_frame_error_only
    (s : ManagerState) (sendOk : Nat → Bool) (pubOk storeOk : Bool) (nextId : Nat)
    (ts errText : String) (room uid : Nat) (uname : String) (ws : Nat) :
    handle_chat_frame s sendOk pubOk storeOk nextId ts errText room uid uname ws .malformed =
      { persisted := none, broadcast := none
        errorTo := some (ws, "Invalid message format")
        state := s, loopContinues := true } := rfl

/-- C3: when the store commit raises on a recognized "message" frame with
non-empty content, the per-frame exception handler sends the exception text
as an error frame to the sending connection; nothing is persisted, no
broadcast or fan-out happens, the registry state is untouched and the loop
continues.  Moreover, on every frame whatsoever, a broadcast is issued only
when a message was persisted first. -/
theorem store_failure_surfaces_error
    (s : ManagerState) (sendOk : Nat → Bool) (pubOk : Bool) (nextId : Nat)
    (ts errText : String) (room uid : Nat) (uname : String) (ws : Nat)
    (ty cnt : Option String)
    (hty : ty.getD "message" = "message") (hc : cnt.getD "" ≠ "") :
    handle_chat_frame s sendOk pubOk false nextId ts errText room uid uname ws (.obj ty cnt) =
      { persisted := none, broadcast := none, errorTo := some (ws, errText)
        state := s, loopContinues := true } ∧
    ∀ storeOk f,
      (handle_chat_frame s sendOk pubOk storeOk nextId ts errText room uid uname ws f).broadcast
          ≠ none →
      (handle_chat_frame s sendOk pubOk storeOk nextId ts errText room uid uname ws f).persisted
          ≠ none := by
  constructor
  · simp [handle_chat_frame, hty, hc, save_message_to_db]
  · intro storeOk f hb
    cases f with
    | malformed => simp [handle_chat_frame] at hb
    | obj ty' cnt' =>
        by_cases hcond : (ty'.getD "message" = "message" ∧ cnt'.getD "" ≠ "")
        · cases hs : save_message_to_db storeOk nextId ts room uid (cnt'.getD "") with
          | none => simp [handle_chat_frame, hcond, hs] at hb
          | some mm => simp [handle_chat_frame, hcond, hs]
        · simp [handle_chat_frame, hcond, silentOutcome] at hb

/-- C3 witness: a `type:"message"` frame with content "hi" hitting a failing
store produces exactly the error outcome, at a concrete registry state. -/
theorem store_failure_surfaces_error_witness :
    ((some "message" : Option String).getD "message" = "message") ∧
    ((some "hi" : Option String).getD "" ≠ "") ∧
    handle_chat_frame ⟨[(7, [1])], [(1, 3)], true⟩ (fun _ => true) true false 10
        "t0" "db down" 7 3 "alice" 1 (.obj (some "message") (some "hi")) =
      { persisted := none, broadcast := none, errorTo := some (1, "db down")
        state := ⟨[(7, [1])], [(1, 3)], true⟩, loopContinues := true } := by
  refine ⟨by decide, by decide, ?_⟩
  exact (store_failure_surfaces_error ⟨[(7, [1])], [(1, 3)], true⟩ (fun _ => true) true 10
    "t0" "db down" 7 3 "alice" 1 (some "message") (some "hi") (by decide) (by decide)).1

/-- C10: on the room-scope connection, a decoded frame without a `type`
field is handled exactly like one tagged "message"; a "message"-typed frame
with a missing or empty `content` is a complete silent no-op (nothing
persisted, nothing broadcast, no error frame, state untouched, loop
continues); and a frame with any other type tag is the same silent
no-op. -/
theorem message_default_and_silent_ignore
    (s : ManagerState) (sendOk : Nat → Bool) (pubOk storeOk : Bool) (nextId : Nat)
    (ts errText : String) (room uid : Nat) (uname : String) (ws : Nat) :
    (∀ cnt, handle_chat_frame s sendOk pubOk storeOk nextId ts errText room uid uname ws
        (.obj none cnt) =
      handle_chat_frame s sendOk pubOk storeOk nextId ts errText room uid uname ws
        (.obj (some "message") cnt)) ∧
    (∀ ty, ty.getD "message" = "message" →
      handle_chat_frame s sendOk pubOk storeOk nextId ts errText room uid uname ws
          (.obj ty none) = silentOutcome s ∧
      handle_chat_frame s sendOk pubOk storeOk nextId ts errText room uid uname ws
          (.obj ty (some "")) = silentOutcome s) ∧
    (∀ t cnt, t ≠ "message" →
      handle_chat_frame s sendOk pubOk storeOk nextId ts errText room uid uname ws
          (.obj (some t) cnt) = silentOutcome s) := by
  refine ⟨fun cnt => rfl, fun ty hty => ?_, fun t cnt ht => ?_⟩
  · constructor <;> simp [handle_chat_frame, hty]
  · simp [handle_chat_frame, ht]

/-- C10 witness: a well-formed frame with the unrecognized tag "typing" is
silently ignored at a concrete registry state, and a "message" frame with
empty content likewise. -/
theorem message_default_and_silent_ignore_witness :
    ("typing" ≠ "message") ∧
    handle_chat_frame ⟨[(7, [1])], [(1, 3)], true⟩ (fun _ => true) true true 10
        "t0" "e" 7 3 "alice" 1 (.obj (some "typing") (some "x")) =
      silentOutcome ⟨[(7, [1])], [(1, 3)], true⟩ ∧
    handle_chat_frame ⟨[(7, [1])], [(1, 3)], true⟩ (fun _ => true) true true 10
        "t0" "e" 7 3 "alice" 1 (.obj (some "message") (some "")) =
      silentOutcome ⟨[(7, [1])], [(1, 3)], true⟩ := by
  refine ⟨by decide, ?_, ?_⟩
  · exact (message_default_and_silent_ignore ⟨[(7, [1])], [(1, 3)], true⟩ (fun _ => true)
      true true 10 "t0" "e" 7 3 "alice" 1).2.2 "typing" (some "x") (by decide)
  · exact ((message_default_and_silent_ignore ⟨[(7, [1])], [(1, 3)], true⟩ (fun _ => true)
      true true 10 "t0" "e" 7 3 "alice" 1).2.1 (some "message") (by decide)).2

/-- C1: if the token does not resolve to a user, or it resolves to a user
who is not a member of the requested room, the room-scope setup closes with
the policy-violation code 1008 and leaves the registry untouched — in
particular `connections_for` of the room is unchanged and the connection
never appears in it; and whenever setup accepts, both the authentication
and the membership check had succeeded. -/
theorem policy_close_before_registration
    (vt : String → Option Nat) (db : DB) (s : ManagerState) (room ws : Nat) (token : String)
    (h : get_current_user_ws vt db token = none ∨
      ∀ uid, get_current_user_ws vt db token = some uid →
        verify_room_membership db uid room = false) :
    websocket_chat_setup vt db s room ws token = (SetupOutcome.policyClose 1008, s, []) ∧
    roomConns (websocket_chat_setup vt db s room ws token).2.1 room = roomConns s room ∧
    connections_for (websocket_chat_setup vt db s room ws token).2.1 room =
      connections_for s room ∧
    (∀ uid, (websocket_chat_setup vt db s room ws token).1 = SetupOutcome.accepted uid →
      get_current_user_ws vt db token = some uid ∧
        verify_room_membership db uid room = true) := by
  cases hg : get_current_user_ws vt db token with
  | none => simp [websocket_chat_setup, hg]
  | some uid =>
      have hm : verify_room_membership db uid room = false := by
        cases h with
        | inl h0 => rw [h0] at hg; cases hg
        | inr h1 => exact h1 uid hg
      simp [websocket_chat_setup, hg, hm]

/-- C1 witness: a token that resolves to no user is closed with 1008 and the
registry for room 5 — holding websocket 2 — is unchanged. -/
theorem policy_close_before_registration_witness :
    (get_current_user_ws (fun _ => none) ⟨[3], [5], []⟩ "tok" = none ∨
      ∀ uid, get_current_user_ws (fun _ => none) ⟨[3], [5], []⟩ "tok" = some uid →
        verify_room_membership ⟨[3], [5], []⟩ uid 5 = false) ∧
    websocket_chat_setup (fun _ => none) ⟨[3], [5], []⟩ ⟨[(5, [2])], [(2, 9)], true⟩ 5 1 "tok" =
      (SetupOutcome.policyClose 1008, ⟨[(5, [2])], [(2, 9)], true⟩, []) ∧
    connections_for
        (websocket_chat_setup (fun _ => none) ⟨[3], [5], []⟩
          ⟨[(5, [2])], [(2, 9)], true⟩ 5 1 "tok").2.1 5 =
      connections_for ⟨[(5, [2])], [(2, 9)], true⟩ 5 := by
  have h := policy_close_before_registration (fun _ => none) ⟨[3], [5], []⟩
    ⟨[(5, [2])], [(2, 9)], true⟩ 5 1 "tok" (Or.inl rfl)
  exact ⟨Or.inl rfl, h.1, h.2.2.1⟩

/-- C7 counterexample: registering websocket 1 for room 5 a second time
returns exactly the state of the first registration — the same set-based
`add` silently succeeds leaving the registry unchanged, with no error
condition of any kind (the operation has no error outcome at all), refuting
the claim that a duplicate register is an error reported to the caller. -/
theorem second_register_silent_cx :
    ConnectionManager.connect (ConnectionManager.connect ⟨[], [], false⟩ 1 5 3) 1 5 3 =
      ConnectionManager.connect ⟨[], [], false⟩ 1 5 3 := by decide

/-- C7 amended: `connect` is silently idempotent — registering a connection
that is already registered for the room leaves the entire registry state
exactly as it was, and no error is produced (the operation's only result is
the new state). -/
theorem register_idempotent_silent (s : ManagerState) (ws room uid : Nat) :
    ConnectionManager.connect (ConnectionManager.connect s ws room uid) ws room uid =
      ConnectionManager.connect s ws room uid := by
  unfold ConnectionManager.connect
  simp only [alookup_aset_self]
  rw [setAdd_already_mem (setAdd_mem_self _ _), aset_aset, aset_aset]

/-- C4 counterexample: one connection (websocket 1, user 3) registers for
room 5, the listener loop runs two poll iterations, then the connection —
the last one for the room — deregisters.  The raw subscribe call for room
5's channel was issued twice (once per poll iteration, not once per first
registration), no unsubscribe call was ever issued, and after the last
local connection is gone the process is still subscribed to the channel. -/
theorem subscribe_lifecycle_cx :
    connections_for
        (ConnectionManager.disconnect (ConnectionManager.connect ⟨[], [], false⟩ 1 5 3) 1 5)
        5 = 0 ∧
    (redis_listener_iter (ConnectionManager.connect ⟨[], [], false⟩ 1 5 3) (fun _ => true)
        (redis_listener_iter (ConnectionManager.connect ⟨[], [], false⟩ 1 5 3) (fun _ => true)
          ⟨[], [], []⟩ none).1 none).1.subscribeEvents = [5, 5] ∧
    (redis_listener_iter (ConnectionManager.connect ⟨[], [], false⟩ 1 5 3) (fun _ => true)
        (redis_listener_iter (ConnectionManager.connect ⟨[], [], false⟩ 1 5 3) (fun _ => true)
          ⟨[], [], []⟩ none).1 none).1.unsubscribeEvents = [] ∧
    5 ∈ (redis_listener_iter (ConnectionManager.connect ⟨[], [], false⟩ 1 5 3) (fun _ => true)
        (redis_listener_iter (ConnectionManager.connect ⟨[], [], false⟩ 1 5 3) (fun _ => true)
          ⟨[], [], []⟩ none).1 none).1.channels := by decide

/-- C4 amended: each listener poll iteration re-issues a subscribe for every
room currently holding local connections; at the channel-set level this is
idempotent, so the per-process subscribed-channel set stays duplicate-free
(per-room subscription count at most one) and after an iteration it is
exactly the old set united with the rooms currently holding connections.
No unsubscribe is ever issued: the unsubscribe log is unchanged by the
iteration (and `disconnect` does not touch the pub/sub state at all), so a
room's channel entry survives the deregistration of its last local
connection. -/
theorem subscribe_monotone_no_unsubscribe
    (s : ManagerState) (sendOk : Nat → Bool) (p : PubSub) (inc : Option Nat)
    (hnd : p.channels.Nodup) :
    (∀ r, r ∈ (redis_listener_iter s sendOk p inc).1.channels ↔
        r ∈ p.channels ∨ r ∈ s.active_connections.map Prod.fst) ∧
    (redis_listener_iter s sendOk p inc).1.channels.Nodup ∧
    (redis_listener_iter s sendOk p inc).1.unsubscribeEvents = p.unsubscribeEvents ∧
    (redis_listener_iter s sendOk p inc).1.subscribeEvents =
      p.subscribeEvents ++
        (if s.active_connections.map Prod.fst = [] then []
         else s.active_connections.map Prod.fst) := by
  have hfst : (redis_listener_iter s sendOk p inc).1 =
      (if s.active_connections.map Prod.fst = [] then p
       else pubsubSubscribe p (s.active_connections.map Prod.fst)) := by
    cases inc with
    | none => rfl
    | some room =>
        unfold redis_listener_iter
        cases h : alookup s.active_connections room <;> simp [h]
  rw [hfst]
  by_cases hch : s.active_connections.map Prod.fst = []
  · simp [hch, hnd]
  · simp only [if_neg hch]
    exact ⟨fun r => mem_foldl_setAdd _ _ r, nodup_foldl_setAdd _ _ hnd, rfl, rfl⟩

/-- C4 amended witness: starting from the empty pub/sub state with one
connection registered for room 5, one poll iteration subscribes room 5's
channel, keeps the channel set duplicate-free and issues no unsubscribe. -/
theorem subscribe_monotone_no_unsubscribe_witness :
    (⟨[], [], []⟩ : PubSub).channels.Nodup ∧
    ((5 : Nat) ∈ (redis_listener_iter (ConnectionManager.connect ⟨[], [], false⟩ 1 5 3)
        (fun _ => true) ⟨[], [], []⟩ none).1.channels ↔
      (5 : Nat) ∈ (⟨[], [], []⟩ : PubSub).channels ∨
      (5 : Nat) ∈ (ConnectionManager.connect ⟨[], [], false⟩ 1 5 3).active_connections.map
        Prod.fst) ∧
    (redis_listener_iter (ConnectionManager.connect ⟨[], [], false⟩ 1 5 3)
        (fun _ => true) ⟨[], [], []⟩ none).1.unsubscribeEvents =
      (⟨[], [], []⟩ : PubSub).unsubscribeEvents := by
  have h := subscribe_monotone_no_unsubscribe (ConnectionManager.connect ⟨[], [], false⟩ 1 5 3)
    (fun _ => true) ⟨[], [], []⟩ none (by decide)
  exact ⟨by decide, h.1 5, h.2.2.1⟩

/-- C9 counterexample: a successful notification-scope setup (token resolves
to user 3, a member of room 5) accepts the connection and sends the
confirmation frame but returns the process-wide connection state exactly
unchanged — websocket 7 is registered in no set — refuting the claim that
the handler registers the connection in a process-wide set. -/
theorem notifications_register_nothing_cx :
    websocket_notifications_setup (fun _ => some 3) ⟨[3], [5], [(5, 3)]⟩
        ⟨[], [], false⟩ 7 "tok" =
      (SetupOutcome.accepted 3, ⟨[], [], false⟩, [Payload.connectedUser 3]) := by decide

/-- C9 amended: the notification-scope handler authenticates and accepts the
connection without registering it in any set (the process-wide connection
state is returned unchanged); a typing frame declaring a truthy room the
user is a member of is relayed through the same `broadcast_to_room` path
with the payload `type:"typing", room_id, user_id, username, is_typing`,
with nothing persisted (the handler has no store call on any path); a
typing frame for a room the user is not a member of is not broadcast. -/
theorem typing_relay_without_registration
    (vt : String → Option Nat) (db : DB) (s s2 : ManagerState) (sendOk : Nat → Bool)
    (pubOk : Bool) (uid : Nat) (uname : String) (ws : Nat) (token : String)
    (r : Nat) (ity : Option Bool)
    (hauth : get_current_user_ws vt db token = some uid) (hr : r ≠ 0) :
    websocket_notifications_setup vt db s ws token =
      (SetupOutcome.accepted uid, s, [Payload.connectedUser uid]) ∧
    (verify_room_membership db uid r = true →
      handle_notification_frame db s2 sendOk pubOk uid uname ws
          (.obj (some "typing") (some r) ity) =
        { broadcast := some (r, Payload.typing r uid uname (ity.getD false),
            ConnectionManager.broadcast_to_room s2 sendOk pubOk r
              (Payload.typing r uid uname (ity.getD false)))
          errorTo := none
          state := (ConnectionManager.broadcast_to_room s2 sendOk pubOk r
              (Payload.typing r uid uname (ity.getD false))).state
          loopContinues := true }) ∧
    (verify_room_membership db uid r = false →
      handle_notification_frame db s2 sendOk pubOk uid uname ws
          (.obj (some "typing") (some r) ity) = notifSilent s2) := by
  refine ⟨by simp [websocket_notifications_setup, hauth], fun hm => ?_, fun hm => ?_⟩
  · simp [handle_notification_frame, hr, hm]
  · simp [handle_notification_frame, hm]

/-- C9 amended witness: user 3 is a member of room 5 but not of room 6; at a
concrete registry the setup changes nothing and a typing frame for room 5
is relayed while one for room 6 is not. -/
theorem typing_relay_without_registration_witness :
    (get_current_user_ws (fun _ => some 3) ⟨[3], [5, 6], [(5, 3)]⟩ "tok" = some 3) ∧
    websocket_notifications_setup (fun _ => some 3) ⟨[3], [5, 6], [(5, 3)]⟩
        ⟨[(5, [2])], [(2, 3)], true⟩ 7 "tok" =
      (SetupOutcome.accepted 3, ⟨[(5, [2])], [(2, 3)], true⟩, [Payload.connectedUser 3]) ∧
    handle_notification_frame ⟨[3], [5, 6], [(5, 3)]⟩ ⟨[(5, [2])], [(2, 3)], true⟩
        (fun _ => true) true 3 "alice" 7 (.obj (some "typing") (some 6) (some true)) =
      notifSilent ⟨[(5, [2])], [(2, 3)], true⟩ := by
  refine ⟨by decide, ?_, ?_⟩
  · exact (typing_relay_without_registration (fun _ => some 3) ⟨[3], [5, 6], [(5, 3)]⟩
      ⟨[(5, [2])], [(2, 3)], true⟩ ⟨[(5, [2])], [(2, 3)], true⟩ (fun _ => true) true 3
      "alice" 7 "tok" 5 (some true) (by decide) (by decide)).1
  · exact (typing_relay_without_registration (fun _ => some 3) ⟨[3], [5, 6], [(5, 3)]⟩
      ⟨[(5, [2])], [(2, 3)], true⟩ ⟨[(5, [2])], [(2, 3)], true⟩ (fun _ => true) true 3
      "alice" 7 "tok" 6 (some true) (by decide) (by decide)).2.2 (by decide)

end RTChat
